import Mathlib

/-!
Shallow embedding of `src/tools/simulator/device_simulator.py`
(nRF Cloud device simulator for the kid GPS tracker) and proofs about it.

Python values that appear in message payloads are modelled by `JVal`
(JSON-like values; Python distinguishes `int` and `float`, so we keep
separate constructors).  Randomness (`random.gauss`, `random.uniform`),
wall-clock time (`now_ms`) and the MQTT transport's local return code are
passed in as explicit inputs.  Exceptions are modelled with `Except` or an
`Option String` error component; file-system and HTTP effects of
provisioning are modelled by explicit state and environment records.
-/

namespace DeviceSim

/-- JSON-like Python values as they occur in message payloads.
Python keeps `int` and `float` distinct; floats are modelled as rationals. -/
inductive JVal where
  | jnull
  | jbool (b : Bool)
  | jint (n : Int)
  | jfloat (q : Rat)
  | jstr (s : String)
  | jarr (xs : List JVal)
  | jobj (fields : List (String × JVal))
  deriving Repr

/-- Membership test for `List Char` as contiguous sublist (Python `needle in haystack`
on strings). `containsSeg xs ys = true` iff `xs` occurs contiguously in `ys`. -/
def containsSeg (xs : List Char) : List Char → Bool
  | [] => xs.isEmpty
  | c :: cs => xs.isPrefixOf (c :: cs) || containsSeg xs cs

/-- Python `needle in haystack` for strings: contiguous substring test. -/
def pyInStr (needle haystack : String) : Bool :=
  containsSeg needle.data haystack.data

/-- Python `s.endswith(suffix)`.  (Implemented on the character lists so the
kernel can evaluate it; `String.endsWith` is definitionally opaque to
`decide`.) -/
def pyEndsWith (s suffix : String) : Bool :=
  suffix.data.isSuffixOf s.data

/-- The whitespace characters Python `str.strip()` removes. -/
def isPyWhitespace (c : Char) : Bool :=
  c == ' ' || c == '\t' || c == '\n' || c == '\r' || c == '\x0b' || c == '\x0c'

/-- Python `s.strip()`: remove leading and trailing whitespace. -/
def pyStrip (s : String) : String :=
  ⟨((s.data.dropWhile isPyWhitespace).reverse.dropWhile isPyWhitespace).reverse⟩

/-- `DeviceSimulator._is_c2d_topic` (device_simulator.py lines 408-414):
`topic.endswith("/r") and f"/m/d/{self.device_id}/" in topic`. -/
def is_c2d_topic (device_id topic : String) : Bool :=
  pyEndsWith topic "/r" && pyInStr ("/m/d/" ++ device_id ++ "/") topic

/-! ## Python value semantics helpers -/

/-- Association-list lookup for a modelled Python `dict` (first match; parsed
JSON dicts have unique keys). -/
def alistFind (fields : List (String × JVal)) (key : String) : Option JVal :=
  (fields.find? (fun p => p.1 == key)).map (fun p => p.2)

/-- Python `obj.get(key, default)`: works on dicts, raises `AttributeError` on
any non-dict value (str, int, list, ... have no `.get`). -/
def pyGet (v : JVal) (key : String) (default : JVal) : Except String JVal :=
  match v with
  | .jobj fields => .ok ((alistFind fields key).getD default)
  | _ => .error "AttributeError: object has no attribute get"

/-- Python `key in v` for a string `key`: key test on dicts, substring test on
strings, element test on lists, `TypeError` on non-container values. -/
def pyContains (v : JVal) (key : String) : Except String Bool :=
  match v with
  | .jobj fields => .ok (fields.any (fun p => p.1 == key))
  | .jstr s => .ok (pyInStr key s)
  | .jarr xs => .ok (xs.any (fun x => match x with | .jstr s => s == key | _ => false))
  | _ => .error "TypeError: argument is not iterable"

/-- Python `v[key]` for a string `key`: dict indexing (`KeyError` when absent),
`TypeError` on any other value (string and list indices must be integers). -/
def pySubscript (v : JVal) (key : String) : Except String JVal :=
  match v with
  | .jobj fields =>
    match alistFind fields key with
    | some x => .ok x
    | none => .error "KeyError"
  | _ => .error "TypeError: indices must be integers"

/-- A non-empty all-digit character list read as a natural number. -/
def charsToNat? (cs : List Char) : Option Nat :=
  if cs.isEmpty then none
  else cs.foldl (fun acc c =>
    match acc with
    | none => none
    | some n => if c.isDigit then some (n * 10 + (c.toNat - 48)) else none) (some 0)

/-- Python `int(s)` for a string: strip whitespace, optional sign, digits.
(Digit-group underscores accepted by CPython are not modelled; no claim
involves them.) -/
def pyStrToInt (s : String) : Option Int :=
  match (pyStrip s).data with
  | '+' :: rest => (charsToNat? rest).map (fun n => (n : Int))
  | '-' :: rest => (charsToNat? rest).map (fun n => -(n : Int))
  | t => (charsToNat? t).map (fun n => (n : Int))

/-- Truncation of a rational toward zero, as Python `int(float)` does. -/
def ratTruncZ (q : Rat) : Int := Int.tdiv q.num (q.den : Int)

/-- Python `int(v)`: identity on ints, `True/False ↦ 1/0`, truncation toward
zero on floats, integer-literal parsing on strings (`ValueError` otherwise),
`TypeError` on other values. -/
def pyInt (v : JVal) : Except String Int :=
  match v with
  | .jint n => .ok n
  | .jbool b => .ok (if b then 1 else 0)
  | .jfloat q => .ok (ratTruncZ q)
  | .jstr s =>
    match pyStrToInt s with
    | some n => .ok n
    | none => .error "ValueError: invalid literal for int"
  | _ => .error "TypeError: int argument must be a number or string"

/-- Python `v == "lit"` for an arbitrary value `v` and a string literal:
true exactly when `v` is that string. -/
def jvalEqStr (v : JVal) (lit : String) : Bool :=
  match v with
  | .jstr s => s == lit
  | _ => false

/-! ## Shadow configuration -/

/-- `self.shadow_config` (device_simulator.py lines 235-238): a dict with
exactly the keys "counterEnable" and "locationInterval"; no other key is ever
written to it.  `counterEnable` stores whatever payload value was assigned
(initially `False`); `locationInterval` stores the `int(...)`-coerced value
(initially the configured interval). -/
structure ShadowConfig where
  counterEnable : JVal
  locationInterval : JVal
  deriving Repr

/-- Second half of `DeviceSimulator._handle_config_update`: the
`"locationInterval" in config` branch (lines 453-455), run after the
counterEnable branch.  Returns the dict state after the branch together with
an exception, if one was raised (the `print` logging carries no state and is
not modelled). -/
def handle_config_interval (cfg : ShadowConfig) (config : JVal) :
    ShadowConfig × Option String :=
  match pyContains config "locationInterval" with
  | .error e => (cfg, some e)
  | .ok false => (cfg, none)
  | .ok true =>
    match pySubscript config "locationInterval" with
    | .error e => (cfg, some e)
    | .ok v =>
      match pyInt v with
      | .error e => (cfg, some e)
      | .ok n => ({ cfg with locationInterval := .jint n }, none)

/-- `DeviceSimulator._handle_config_update` (device_simulator.py lines
446-458): apply the "counterEnable" field if present (stored raw), then the
"locationInterval" field if present (stored as `int(...)`).  The result is the
mutated `shadow_config` plus the exception raised, if any — a Python exception
after the first assignment leaves that assignment in place. -/
def handle_config_update (cfg : ShadowConfig) (config : JVal) :
    ShadowConfig × Option String :=
  match pyContains config "counterEnable" with
  | .error e => (cfg, some e)
  | .ok false => handle_config_interval cfg config
  | .ok true =>
    match pySubscript config "counterEnable" with
    | .error e => (cfg, some e)
    | .ok v => handle_config_interval { cfg with counterEnable := v } config

/-! ## Simulator state -/

/-- One route entry: the waypoints of `TOKYO_ROUTE` carry a `"name"` key, the
interpolated points produced by `interpolate_points` do not. -/
structure Point where
  name : Option String
  lat : Rat
  lng : Rat
  deriving Repr

/-- A d2c publish as it reaches the transport: `(topic, message)`.  The code
publishes `json.dumps(message)`; we record the message value itself, the
serialization being a bijective wire encoding the claims never inspect. -/
abbrev Wire := String × JVal

/-- The mutable fields of `DeviceSimulator` (device_simulator.py lines
229-259) that the verified handlers read or write.  `client` is the paho MQTT
handle, modelled as the transport's local return code for a publish
(`None` before `connect()` assigns it); `0` is `mqtt.MQTT_ERR_SUCCESS`. -/
structure SimState where
  device_id : String
  connected : Bool
  diag_mode : Bool
  topic_d2c : String
  topic_c2d : String
  route : List Point
  route_index : Nat
  shadow_config : ShadowConfig
  test_counter : Int
  client : Option (Wire → Int)

/-- `DeviceSimulator._publish_d2c` (device_simulator.py lines 479-485): when
not connected, drop the message and return `False` without touching the
transport; otherwise publish on the d2c topic with qos 1 and return whether
the local return code is `MQTT_ERR_SUCCESS`.  The `Except` error is the
`AttributeError` Python would raise if `self.client` were still `None`. -/
def publish_d2c (st : SimState) (message : JVal) : Except String (Bool × List Wire) :=
  if st.connected = false then .ok (false, [])
  else
    match st.client with
    | none => .error "AttributeError: NoneType object has no attribute publish"
    | some pub => .ok (pub (st.topic_d2c, message) == 0, [(st.topic_d2c, message)])

/-! ## AT command responses -/

/-- The static AT response table of `DeviceSimulator._send_at_response`
(device_simulator.py lines 461-466). -/
def at_responses (device_id : String) : List (String × String) :=
  [("AT+CGMR", "mfw_nrf91x1_2.0.2"),
   ("AT+CGSN", device_id),
   ("AT%HWVERSION", "nRF9151 LACA AAA (simulator)"),
   ("AT+CIMI", "440100000000000")]

/-- The reply message `_send_at_response` builds for a command (lines
467-473): the table is consulted with `command.strip()` and falls back to the
fixed sentinel `"ERROR"`. -/
def at_response_msg (device_id : String) (ts : Int) (command : String) : JVal :=
  let response :=
    (((at_responses device_id).find? (fun p => p.1 == pyStrip command)).map (fun p => p.2)).getD
      "ERROR"
  .jobj [("appId", .jstr "MODEM"), ("messageType", .jstr "DATA"),
         ("ts", .jint ts), ("data", .jstr response)]

/-- `DeviceSimulator._send_at_response` (device_simulator.py lines 460-475):
build the reply and publish it via `_publish_d2c` (the boolean result is
ignored by the code).  `ts` stands for `now_ms()`. -/
def send_at_response (st : SimState) (ts : Int) (command : String) :
    Except String (List Wire) :=
  match publish_d2c st (at_response_msg st.device_id ts command) with
  | .error e => .error e
  | .ok (_, wires) => .ok wires

/-! ## Cloud-to-device message handling -/

/-- `DeviceSimulator._handle_c2d_message` (device_simulator.py lines 431-444):
dispatch on `(payload.get("appId",""), payload.get("messageType",""))`.
`(MODEM, CMD)` extracts the data field and replies via `_send_at_response`
(`data.strip()` raises `AttributeError` when data is not a string);
`CONFIG` merges the data field into the shadow config; anything else is
logged only.  Returns (state after, wires published, exception if any). -/
def handle_c2d_message (st : SimState) (ts : Int) (payload : JVal) :
    SimState × List Wire × Option String :=
  match pyGet payload "appId" (.jstr "") with
  | .error e => (st, [], some e)
  | .ok app_id =>
    match pyGet payload "messageType" (.jstr "") with
    | .error e => (st, [], some e)
    | .ok msg_type =>
      if jvalEqStr app_id "MODEM" && jvalEqStr msg_type "CMD" then
        match pyGet payload "data" (.jstr "") with
        | .error e => (st, [], some e)
        | .ok (.jstr command) =>
          match send_at_response st ts command with
          | .error e => (st, [], some e)
          | .ok wires => (st, wires, none)
        | .ok _ => (st, [], some "AttributeError: object has no attribute strip")
      else if jvalEqStr app_id "CONFIG" then
        match pyGet payload "data" (.jobj []) with
        | .error e => (st, [], some e)
        | .ok data =>
          match handle_config_update st.shadow_config data with
          | (cfg, err) => ({ st with shadow_config := cfg }, [], err)
      else (st, [], none)

/-- The raw bytes of an inbound MQTT message, classified by the outcome of
`msg.payload.decode("utf-8")` followed by `json.loads(...)` — both Python
standard-library calls, modelled by their observable result: bytes that are
not valid UTF-8, text that is not valid JSON, or a successfully parsed
value. -/
inductive RawPayload where
  | invalidUtf8 (bytes : List Nat)
  | invalidJson (text : String)
  | parsed (v : JVal)

/-- `json.loads(msg.payload.decode("utf-8"))` on a classified raw payload:
the two failure classes raise exactly the exception types `_on_message`
catches. -/
def json_loads_decoded : RawPayload → Except String JVal
  | .invalidUtf8 _ => .error "UnicodeDecodeError"
  | .invalidJson _ => .error "JSONDecodeError"
  | .parsed v => .ok v

/-- `DeviceSimulator._on_message` (device_simulator.py lines 416-427): decode
and parse the payload, catching only `json.JSONDecodeError` and
`UnicodeDecodeError` (logged, message dropped); then dispatch to
`_handle_c2d_message` when the topic is the device's c2d command topic, else
only log.  Returns (state after, wires published, uncaught exception if
any). -/
def on_message (st : SimState) (ts : Int) (topic : String) (raw : RawPayload) :
    SimState × List Wire × Option String :=
  match json_loads_decoded raw with
  | .error _ => (st, [], none)
  | .ok payload =>
    if is_c2d_topic st.device_id topic then handle_c2d_message st ts payload
    else (st, [], none)

/-! ## Connect callback -/

/-- The reason-code table of `DeviceSimulator._on_connect`
(device_simulator.py lines 390-396). -/
def rc_messages : List (Int × String) :=
  [(1, "incorrect protocol version"),
   (2, "invalid client identifier"),
   (3, "server unavailable"),
   (4, "bad username or password"),
   (5, "not authorized")]

/-- A transport-level action the connect callback may perform. -/
inductive MqttAction where
  | subscribeTopic (topic : String)
  | publishMsg (w : Wire)
  deriving Repr

/-- `DeviceSimulator._on_connect` (device_simulator.py lines 376-399):
`rc = 0` sets `connected := true` and subscribes to the c2d topic (skipped in
diagnostic mode); any other `rc` prints the named reason (`"unknown"` for
codes off the table) and sets `connected := false`.  Returns (state after,
transport actions performed, failure reason surfaced). -/
def on_connect (st : SimState) (rc : Int) : SimState × List MqttAction × Option String :=
  if rc == 0 then
    let st' := { st with connected := true }
    if st'.diag_mode then (st', [], none)
    else (st', [.subscribeTopic st'.topic_c2d], none)
  else
    let reason := (((rc_messages.find? (fun p => p.1 == rc)).map (fun p => p.2)).getD "unknown")
    ({ st with connected := false }, [], some reason)

/-! ## Route construction and GNSS telemetry -/

/-- Round half to even (banker's rounding), as Python `round` resolves ties.
(Python rounds binary floats; on our exact rationals ties resolve the same
way, and no claim depends on the numeric outcome.) -/
def roundHalfEven (q : Rat) : Int :=
  let f := ⌊q⌋
  let frac := q - (f : Rat)
  if frac < 1/2 then f
  else if 1/2 < frac then f + 1
  else if f % 2 = 0 then f else f + 1

/-- Python `round(q, ndigits)`. -/
def pyRound (q : Rat) (ndigits : Nat) : Rat :=
  (roundHalfEven (q * ((10 ^ ndigits : Nat) : Rat)) : Rat) / ((10 ^ ndigits : Nat) : Rat)

/-- `interpolate_points` (device_simulator.py lines 75-83): `num_steps`
intermediate points between two waypoints at ratios `1/num_steps` to
`num_steps/num_steps`; the generated dicts carry no `"name"` key. -/
def interpolate_points (p1 p2 : Point) (num_steps : Nat) : List Point :=
  (List.range num_steps).map (fun i =>
    let ratio : Rat := ((i + 1 : Nat) : Rat) / ((num_steps : Nat) : Rat)
    { name := none,
      lat := p1.lat + (p2.lat - p1.lat) * ratio,
      lng := p1.lng + (p2.lng - p1.lng) * ratio })

/-- The loop of `build_route` (lines 89-91): for each consecutive waypoint
pair, the first waypoint followed by the interpolated points. -/
def route_segs (steps_between : Nat) : List Point → List Point
  | [] => []
  | [_] => []
  | p :: q :: rest =>
    p :: (interpolate_points p q steps_between ++ route_segs steps_between (q :: rest))

/-- `build_route` (device_simulator.py lines 86-93): the interpolated segments
then the final waypoint.  (On the empty list Python's `waypoints[-1]` would
raise `IndexError`; the function is only ever applied to the 20-waypoint
`TOKYO_ROUTE`.) -/
def build_route (waypoints : List Point) (steps_between : Nat := 3) : List Point :=
  route_segs steps_between waypoints ++ waypoints.getLast?.toList

/-- `TOKYO_ROUTE` (device_simulator.py lines 51-72). -/
def TOKYO_ROUTE : List Point :=
  [⟨some "Tokyo Station",         35.6812, 139.7671⟩,
   ⟨some "Imperial Palace",       35.6852, 139.7528⟩,
   ⟨some "Kudanshita",            35.6938, 139.7510⟩,
   ⟨some "Iidabashi",             35.7020, 139.7450⟩,
   ⟨some "Korakuen",              35.7078, 139.7509⟩,
   ⟨some "Ochanomizu",            35.6994, 139.7633⟩,
   ⟨some "Akihabara",             35.6984, 139.7731⟩,
   ⟨some "Ueno Park",             35.7146, 139.7734⟩,
   ⟨some "Asakusa",               35.7148, 139.7967⟩,
   ⟨some "Skytree",               35.7101, 139.8107⟩,
   ⟨some "Ryogoku",               35.6962, 139.7939⟩,
   ⟨some "Kiyosumi Garden",       35.6812, 139.7975⟩,
   ⟨some "Tsukiji",               35.6654, 139.7707⟩,
   ⟨some "Ginza",                 35.6717, 139.7645⟩,
   ⟨some "Hibiya Park",           35.6735, 139.7568⟩,
   ⟨some "Tokyo Tower",           35.6586, 139.7454⟩,
   ⟨some "Roppongi",              35.6627, 139.7312⟩,
   ⟨some "Akasaka",               35.6765, 139.7376⟩,
   ⟨some "Yotsuya",               35.6860, 139.7301⟩,
   ⟨some "Back to Tokyo Station", 35.6812, 139.7671⟩]

/-- The random draws `send_gnss_location` makes: `random.gauss(0, 0.0001)`
for latitude and longitude jitter and `random.uniform(3.0, 15.0)` for the
accuracy figure, passed in as environment inputs. -/
structure GnssRand where
  g1 : Rat
  g2 : Rat
  acc : Rat

/-- `DeviceSimulator.send_gnss_location` (device_simulator.py lines 487-511):
read the current route point (`IndexError` if the cursor were out of range),
build the GNSS message with jittered rounded coordinates, attempt the publish
(its boolean result only controls logging), then advance the cursor by one
modulo the route length — unconditionally. -/
def send_gnss_location (st : SimState) (ts : Int) (r : GnssRand) :
    Except String (SimState × List Wire) :=
  match st.route[st.route_index]? with
  | none => .error "IndexError: list index out of range"
  | some point =>
    let lat := point.lat + r.g1
    let lng := point.lng + r.g2
    let accuracy := r.acc
    let msg : JVal := .jobj
      [("appId", .jstr "GNSS"), ("ts", .jint ts),
       ("data", .jobj
         [("lat", .jfloat (pyRound lat 6)),
          ("lon", .jfloat (pyRound lng 6)),
          ("acc", .jfloat (pyRound accuracy 1))])]
    match publish_d2c st msg with
    | .error e => .error e
    | .ok (_, wires) =>
      .ok ({ st with route_index := (st.route_index + 1) % st.route.length }, wires)

/-- `n` successive calls to `send_gnss_location` (as the location loop or the
interactive `g` command performs them), with per-call timestamps and random
draws. -/
def send_gnss_iter (ts : Nat → Int) (r : Nat → GnssRand) (st : SimState) :
    Nat → Except String SimState
  | 0 => .ok st
  | n + 1 =>
    match send_gnss_location st (ts n) (r n) with
    | .error e => .error e
    | .ok (st', _) => send_gnss_iter ts r st' n

/-! ## Provisioning -/

/-- Presence of the three credential files `DeviceCerts` tracks: the CA
trust anchor, the device private key and the device certificate. -/
structure FileState where
  ca : Bool
  key : Bool
  cert : Bool
  deriving Repr, DecidableEq

/-- A write to the certificate store performed during provisioning.  (No code
path of `provision_device` deletes a file, so there is no delete operation.) -/
inductive FileOp where
  | downloadCA
  | generateKey
  | generateCert
  deriving Repr, DecidableEq

/-- Outcomes of the external calls `provision_device` makes, supplied as the
environment: the CA download, `GET /v1/account`, the two `openssl` exit
statuses, and `POST /v1/devices` (`.error code` is an `HTTPError`). -/
structure ProvisionEnv where
  ca_download_ok : Bool
  account : Except Nat Unit
  keygen_ok : Bool
  certgen_ok : Bool
  onboard : Except Nat Unit

/-- Result of a `provision_device` run: final file state, file writes
performed, the branch-distinguishing log lines printed, and either the
returned boolean or the uncaught exception. -/
structure ProvisionOutcome where
  files : FileState
  ops : List FileOp
  log : List String
  result : Except String Bool
  deriving Repr

/-- `DeviceSimulator.provision_device` (device_simulator.py lines 273-319):
download the CA if absent; short-circuit with success when all credential
files exist; fetch account info (an `HTTPError` here propagates); generate
key and self-signed certificate (a failing `openssl` raises `RuntimeError`);
POST the certificate — HTTP 409 prints that the device already exists and
returns `False`, any other `HTTPError` prints a failure line and returns
`False`, success returns `True`.  Routine progress prints are not modelled;
the log keeps the lines that distinguish the outcome branches. -/
def provision_device (fs : FileState) (env : ProvisionEnv) : ProvisionOutcome :=
  let step :=
    if fs.ca then (fs, ([] : List FileOp), (none : Option String))
    else if env.ca_download_ok then ({ fs with ca := true }, [.downloadCA], none)
    else (fs, [], some "URLError: CA download failed")
  match step with
  | (fs, ops, some e) => ⟨fs, ops, [], .error e⟩
  | (fs, ops, none) =>
    if fs.key && fs.cert && fs.ca then
      ⟨fs, ops, ["[Provision] Device certificates already exist, reusing."], .ok true⟩
    else
      match env.account with
      | .error code => ⟨fs, ops, [], .error ("HTTPError " ++ toString code)⟩
      | .ok _ =>
        if !env.keygen_ok then
          ⟨fs, ops, [],
           .error "RuntimeError: Failed to generate key. Ensure OpenSSL is installed and in PATH."⟩
        else
          let fs := { fs with key := true }
          let ops := ops ++ [.generateKey]
          if !env.certgen_ok then
            ⟨fs, ops, [], .error "RuntimeError: Failed to generate self-signed certificate"⟩
          else
            let fs := { fs with cert := true }
            let ops := ops ++ [.generateCert]
            match env.onboard with
            | .ok _ =>
              ⟨fs, ops, ["[Provision] Device onboarded successfully!"], .ok true⟩
            | .error 409 =>
              ⟨fs, ops,
               ["[Provision] Device already exists on nRF Cloud.",
                "[Provision] If you need to re-provision, delete the device",
                "            from the nRF Cloud portal, then run again."],
               .ok false⟩
            | .error code =>
              ⟨fs, ops, ["[Provision] Onboarding failed (HTTP " ++ toString code ++ ")."],
               .ok false⟩

/-! ## Concrete sample states (used by witnesses and counterexamples) -/

/-- A freshly constructed simulator for device `device123` (not yet
connected, MQTT client not yet created), with the fallback topic shapes. -/
def sampleState : SimState where
  device_id := "device123"
  connected := false
  diag_mode := false
  topic_d2c := "prod/tenant/m/d/device123/d2c"
  topic_c2d := "prod/tenant/m/d/device123/+/r"
  route := build_route TOKYO_ROUTE 3
  route_index := 0
  shadow_config := ⟨.jbool false, .jint 300⟩
  test_counter := 0
  client := none

/-- `sampleState` after a successful connect: connected, with a transport
whose local publish return code is always `MQTT_ERR_SUCCESS`. -/
def connectedState : SimState :=
  { sampleState with connected := true, client := some (fun _ => 0) }

/-! ## Supporting lemmas -/

theorem containsSeg_iff (xs : List Char) : ∀ ys, containsSeg xs ys = true ↔ xs <:+: ys := by
  intro ys
  induction ys with
  | nil => simp [containsSeg, List.isEmpty_iff, List.infix_nil]
  | cons c cs ih => simp [containsSeg, ih, List.infix_cons_iff, List.isPrefixOf_iff_prefix]

theorem pyInStr_iff (needle haystack : String) :
    pyInStr needle haystack = true ↔ needle.data <:+: haystack.data :=
  containsSeg_iff needle.data haystack.data

theorem pyEndsWith_iff (s suffix : String) :
    pyEndsWith s suffix = true ↔ suffix.data <:+ s.data :=
  List.isSuffixOf_iff_suffix

/-! ## Claim theorems -/

/-- C1.  For every message `m`, if the simulator is not in the Connected
state, `_publish_d2c m` returns `False`, performs no transport publish call,
and does not throw (the call returns normally with no wire traffic, whatever
the client handle is). -/
theorem publish_fails_closed_when_disconnected (st : SimState) (message : JVal)
    (h : st.connected = false) :
    publish_d2c st message = .ok (false, []) := by
  simp [publish_d2c, h]

theorem publish_fails_closed_when_disconnected_witness :
    sampleState.connected = false ∧
    publish_d2c sampleState (.jstr "hello") = .ok (false, []) :=
  ⟨rfl, publish_fails_closed_when_disconnected sampleState (.jstr "hello") rfl⟩

/-- C2.  `_is_c2d_topic t` classifies `t` as command-channel exactly when `t`
ends with the fixed suffix "/r" and contains the segment
"/m/d/{own device id}/"; in particular `.../m/d/device123/x/r` is
command-channel for device `device123` and not for device `device456`. -/
theorem c2d_topic_classification :
    (∀ device_id topic, is_c2d_topic device_id topic = true ↔
      ("/r".data <:+ topic.data ∧ ("/m/d/" ++ device_id ++ "/").data <:+: topic.data)) ∧
    is_c2d_topic "device123" "prod/tenant/m/d/device123/x/r" = true ∧
    is_c2d_topic "device456" "prod/tenant/m/d/device123/x/r" = false := by
  refine ⟨fun device_id topic => ?_, by decide, by decide⟩
  simp [is_c2d_topic, pyEndsWith_iff, pyInStr_iff]

/-- C8.  `_on_connect` with reason code 5 leaves the state disconnected,
surfaces the reason "not authorized", and performs no subscribe and no
snapshot publish; every non-zero code in {1,..,5} maps to its named failure
reason and leaves the state disconnected with no transport action. -/
theorem connect_failure_reason_codes (st : SimState) :
    on_connect st 5 = ({ st with connected := false }, [], some "not authorized") ∧
    on_connect st 1 = ({ st with connected := false }, [], some "incorrect protocol version") ∧
    on_connect st 2 = ({ st with connected := false }, [], some "invalid client identifier") ∧
    on_connect st 3 = ({ st with connected := false }, [], some "server unavailable") ∧
    on_connect st 4 = ({ st with connected := false }, [], some "bad username or password") :=
  ⟨rfl, rfl, rfl, rfl, rfl⟩

theorem alistFind_isSome_of_any {fields : List (String × JVal)} {key : String}
    (h : fields.any (fun p => p.1 == key) = true) :
    ∃ x, alistFind fields key = some x := by
  rcases List.any_eq_true.mp h with ⟨p, hp, hpk⟩
  have hs : (fields.find? (fun p => p.1 == key)).isSome = true :=
    List.find?_isSome.mpr ⟨p, hp, hpk⟩
  rcases Option.isSome_iff_exists.mp hs with ⟨q, hq⟩
  exact ⟨q.2, by simp [alistFind, hq]⟩

/-- C3.  A config-update payload carrying only `locationInterval` leaves
`counterEnable` unchanged; one carrying only `counterEnable` leaves
`locationInterval` unchanged; a payload with no recognized field leaves the
whole stored config unchanged and raises nothing. -/
theorem config_field_independence (cfg : ShadowConfig) :
    (∀ v, ((handle_config_update cfg (.jobj [("locationInterval", v)])).1).counterEnable
        = cfg.counterEnable) ∧
    (∀ v, ((handle_config_update cfg (.jobj [("counterEnable", v)])).1).locationInterval
        = cfg.locationInterval) ∧
    (∀ fields, (∀ p ∈ fields, p.1 ≠ "counterEnable" ∧ p.1 ≠ "locationInterval") →
      handle_config_update cfg (.jobj fields) = (cfg, none)) := by
  refine ⟨fun v => ?_, fun v => ?_, fun fields h => ?_⟩
  · cases hv : pyInt v <;>
      simp [handle_config_update, handle_config_interval, pyContains, pySubscript, alistFind, hv]
  · simp [handle_config_update, handle_config_interval, pyContains, pySubscript, alistFind]
  · have h1 : fields.any (fun p => p.1 == "counterEnable") = false := by
      simp only [List.any_eq_false, beq_iff_eq]
      exact fun p hp => (h p hp).1
    have h2 : fields.any (fun p => p.1 == "locationInterval") = false := by
      simp only [List.any_eq_false, beq_iff_eq]
      exact fun p hp => (h p hp).2
    simp [handle_config_update, handle_config_interval, pyContains, h1, h2]

theorem config_field_independence_witness :
    ((handle_config_update ⟨.jbool false, .jint 300⟩
        (.jobj [("locationInterval", .jint 60)])).1).counterEnable = .jbool false ∧
    ((handle_config_update ⟨.jbool false, .jint 300⟩
        (.jobj [("counterEnable", .jbool true)])).1).locationInterval = .jint 300 ∧
    handle_config_update ⟨.jbool false, .jint 300⟩ (.jobj [("ledColor", .jstr "red")])
      = (⟨.jbool false, .jint 300⟩, none) := by
  refine ⟨(config_field_independence ⟨.jbool false, .jint 300⟩).1 (.jint 60),
          (config_field_independence ⟨.jbool false, .jint 300⟩).2.1 (.jbool true),
          (config_field_independence ⟨.jbool false, .jint 300⟩).2.2 [("ledColor", .jstr "red")] ?_⟩
  intro p hp
  rw [List.mem_singleton] at hp
  subst hp
  exact ⟨by decide, by decide⟩

/-- C7, counterexample.  The claim says every stored interval value is a
positive integer; but `_handle_config_update` coerces with a bare `int(...)`
and stores `-5` for the payload `{"locationInterval": -5}`, and `-5` is not
positive. -/
theorem interval_positivity_fails :
    ((handle_config_update ⟨.jbool false, .jint 300⟩
        (.jobj [("locationInterval", .jint (-5))])).1).locationInterval = .jint (-5) ∧
    ¬ (0 : Int) < -5 :=
  ⟨rfl, by decide⟩

/-- C7, amended.  After a config update whose payload carries a
`locationInterval` value whose Python `int(...)` coercion succeeds, the
stored interval is exactly that coerced integer (an integer, with no
positivity check) and no exception is raised. -/
theorem interval_update_stores_int_coercion (cfg : ShadowConfig)
    (fields : List (String × JVal)) (v : JVal) (n : Int)
    (hv : alistFind fields "locationInterval" = some v)
    (hn : pyInt v = .ok n) :
    ∃ ce, handle_config_update cfg (.jobj fields) = (⟨ce, .jint n⟩, none) := by
  have hq : ∃ q, fields.find? (fun p => p.1 == "locationInterval") = some q := by
    unfold alistFind at hv
    cases hfind : fields.find? (fun p => p.1 == "locationInterval") with
    | none => rw [hfind] at hv; simp at hv
    | some q => exact ⟨q, rfl⟩
  obtain ⟨q, hq⟩ := hq
  have hqmem : q ∈ fields := List.mem_of_find?_eq_some hq
  have hqk := List.find?_some hq
  have hany : fields.any (fun p => p.1 == "locationInterval") = true :=
    List.any_eq_true.mpr ⟨q, hqmem, hqk⟩
  have hint : ∀ c : ShadowConfig,
      handle_config_interval c (.jobj fields) = ({ c with locationInterval := .jint n }, none) := by
    intro c
    simp [handle_config_interval, pyContains, hany, pySubscript, hv, hn]
  cases hce : fields.any (fun p => p.1 == "counterEnable") with
  | false =>
    exact ⟨cfg.counterEnable, by simp [handle_config_update, pyContains, hce, hint]⟩
  | true =>
    obtain ⟨x, hx⟩ := alistFind_isSome_of_any hce
    exact ⟨x, by simp [handle_config_update, pyContains, hce, pySubscript, hx, hint]⟩

theorem interval_update_stores_int_coercion_witness :
    alistFind [("locationInterval", JVal.jint 60)] "locationInterval" = some (.jint 60) ∧
    pyInt (.jint 60) = .ok 60 ∧
    ∃ ce, handle_config_update ⟨.jbool false, .jint 300⟩
        (.jobj [("locationInterval", .jint 60)]) = (⟨ce, .jint 60⟩, none) :=
  ⟨rfl, rfl,
   interval_update_stores_int_coercion ⟨.jbool false, .jint 300⟩
     [("locationInterval", .jint 60)] (.jint 60) 60 rfl rfl⟩

/-- C5, counterexample.  The claim quantifies over command strings not in the
static table; `" AT+CGMR "` is not one of the four table keys, yet the
handler strips it before the lookup and replies with the firmware version,
not the `"ERROR"` sentinel. -/
theorem unknown_command_claim_fails :
    (" AT+CGMR " ∉ ["AT+CGMR", "AT+CGSN", "AT%HWVERSION", "AT+CIMI"]) ∧
    handle_c2d_message connectedState 1700000000000
        (.jobj [("appId", .jstr "MODEM"), ("messageType", .jstr "CMD"),
                ("data", .jstr " AT+CGMR ")])
      = (connectedState,
         [(connectedState.topic_d2c,
           .jobj [("appId", .jstr "MODEM"), ("messageType", .jstr "DATA"),
                  ("ts", .jint 1700000000000), ("data", .jstr "mfw_nrf91x1_2.0.2")])],
         none) ∧
    "mfw_nrf91x1_2.0.2" ≠ "ERROR" :=
  ⟨by decide, rfl, by decide⟩

/-- C5, amended.  For every inbound (MODEM, CMD) message handled while
connected whose data field is a command string whose whitespace-stripped form
is not in the static four-entry query table, handling produces exactly one
reply publish on the d2c channel carrying the fixed sentinel "ERROR" with
appId "MODEM" and the response message type "DATA", raises no exception, and
the reply is never empty. -/
theorem unknown_command_error_sentinel (st : SimState) (ts : Int) (f : Wire → Int)
    (command : String)
    (hconn : st.connected = true) (hcl : st.client = some f)
    (hcmd : pyStrip command ∉ (at_responses st.device_id).map (fun p => p.1)) :
    handle_c2d_message st ts
        (.jobj [("appId", .jstr "MODEM"), ("messageType", .jstr "CMD"),
                ("data", .jstr command)])
      = (st, [(st.topic_d2c,
           .jobj [("appId", .jstr "MODEM"), ("messageType", .jstr "DATA"),
                  ("ts", .jint ts), ("data", .jstr "ERROR")])], none) := by
  have hfind : (at_responses st.device_id).find? (fun p => p.1 == pyStrip command) = none := by
    rw [List.find?_eq_none]
    intro p hp
    simp only [beq_iff_eq]
    intro hpe
    exact hcmd (List.mem_map.mpr ⟨p, hp, hpe⟩)
  simp [handle_c2d_message, pyGet, alistFind, jvalEqStr, send_at_response, at_response_msg,
        hfind, publish_d2c, hconn, hcl]

theorem unknown_command_error_sentinel_witness :
    connectedState.connected = true ∧
    connectedState.client = some (fun _ => 0) ∧
    pyStrip "AT+WRONG" ∉ (at_responses connectedState.device_id).map (fun p => p.1) ∧
    handle_c2d_message connectedState 42
        (.jobj [("appId", .jstr "MODEM"), ("messageType", .jstr "CMD"),
                ("data", .jstr "AT+WRONG")])
      = (connectedState, [(connectedState.topic_d2c,
           .jobj [("appId", .jstr "MODEM"), ("messageType", .jstr "DATA"),
                  ("ts", .jint 42), ("data", .jstr "ERROR")])], none) :=
  ⟨rfl, rfl, by decide,
   unknown_command_error_sentinel connectedState 42 (fun _ => 0) "AT+WRONG" rfl rfl (by decide)⟩

/-- C6, counterexample.  The claim includes "JSON that is not an
object/structured value" among the malformed payloads that are logged and
discarded without raising; but the bare JSON number `5` parses, reaches
`_handle_c2d_message` on the device's own command topic, and
`payload.get("appId", "")` raises `AttributeError` there. -/
theorem malformed_payload_claim_fails :
    is_c2d_topic connectedState.device_id "prod/tenant/m/d/device123/x/r" = true ∧
    (on_message connectedState 0 "prod/tenant/m/d/device123/x/r" (.parsed (.jint 5))).2.2
      = some "AttributeError: object has no attribute get" :=
  ⟨by decide, rfl⟩

/-- C6, amended.  For every inbound message whose raw payload is not valid
UTF-8 or not valid JSON, `_on_message` logs and discards the message — state
unchanged, no wire traffic, no exception.  (A payload that parses to a
non-object JSON value is outside this guarantee: on the command topic it
raises `AttributeError`.) -/
theorem undecodable_payload_discarded (st : SimState) (ts : Int) (topic : String) :
    (∀ bytes, on_message st ts topic (.invalidUtf8 bytes) = (st, [], none)) ∧
    (∀ text, on_message st ts topic (.invalidJson text) = (st, [], none)) :=
  ⟨fun _ => rfl, fun _ => rfl⟩

theorem send_gnss_location_eq (st : SimState) (ts : Int) (r : GnssRand)
    (h : st.route_index < st.route.length)
    (hc : st.connected = true → st.client.isSome = true) :
    ∃ wires, send_gnss_location st ts r =
        .ok ({ st with route_index := (st.route_index + 1) % st.route.length }, wires) ∧
      (st.connected = false → wires = []) := by
  have hp : st.route[st.route_index]? = some st.route[st.route_index] :=
    List.getElem?_eq_getElem h
  cases hconn : st.connected with
  | false =>
    refine ⟨[], ?_, fun _ => rfl⟩
    simp [send_gnss_location, hp, publish_d2c, hconn]
  | true =>
    rcases Option.isSome_iff_exists.mp (hc hconn) with ⟨f, hf⟩
    simp only [send_gnss_location, hp, publish_d2c, hconn, hf]
    exact ⟨_, rfl, fun hfalse => nomatch hfalse⟩

theorem send_gnss_iter_eq (ts : Nat → Int) (r : Nat → GnssRand) (n : Nat) :
    ∀ st : SimState, st.route_index < st.route.length →
      (st.connected = true → st.client.isSome = true) →
      ∃ st', send_gnss_iter ts r st n = .ok st' ∧ st'.route = st.route ∧
        st'.connected = st.connected ∧ st'.client = st.client ∧
        st'.route_index = (st.route_index + n) % st.route.length := by
  induction n with
  | zero =>
    intro st h _
    exact ⟨st, rfl, rfl, rfl, rfl, (Nat.mod_eq_of_lt h).symm⟩
  | succ n ih =>
    intro st h hc
    obtain ⟨wires, heq, -⟩ := send_gnss_location_eq st (ts n) (r n) h hc
    have hlen : 0 < st.route.length := Nat.lt_of_le_of_lt (Nat.zero_le _) h
    have h1 : ({ st with route_index := (st.route_index + 1) % st.route.length } :
        SimState).route_index <
        ({ st with route_index := (st.route_index + 1) % st.route.length } :
        SimState).route.length := Nat.mod_lt _ hlen
    obtain ⟨st', hiter, hroute, hconn, hclient, hidx⟩ :=
      ih { st with route_index := (st.route_index + 1) % st.route.length } h1 hc
    refine ⟨st', ?_, hroute, hconn, hclient, ?_⟩
    · simp [send_gnss_iter, heq, hiter]
    · rw [hidx]
      show ((st.route_index + 1) % st.route.length + n) % st.route.length
          = (st.route_index + (n + 1)) % st.route.length
      rw [Nat.mod_add_mod]
      congr 1
      omega

/-- C4.  With the route built from `TOKYO_ROUTE` (length 77), each call to
`send_gnss_location` advances the cursor by exactly one position modulo the
route length, and performing exactly route-length many calls returns the
cursor to its starting index. -/
theorem route_cursor_wraps_after_full_cycle (st : SimState)
    (ts : Nat → Int) (r : Nat → GnssRand) (ts1 : Int) (r1 : GnssRand)
    (hroute : st.route = build_route TOKYO_ROUTE 3)
    (h : st.route_index < st.route.length)
    (hc : st.connected = true → st.client.isSome = true) :
    st.route.length = 77 ∧
    (∃ st1 wires, send_gnss_location st ts1 r1 = .ok (st1, wires) ∧
      st1.route_index = (st.route_index + 1) % st.route.length) ∧
    (∃ st', send_gnss_iter ts r st st.route.length = .ok st' ∧
      st'.route_index = st.route_index) := by
  have hlen : st.route.length = 77 := by rw [hroute]; decide
  refine ⟨hlen, ?_, ?_⟩
  · obtain ⟨wires, heq, -⟩ := send_gnss_location_eq st ts1 r1 h hc
    exact ⟨_, wires, heq, rfl⟩
  · obtain ⟨st', hiter, -, -, -, hidx⟩ := send_gnss_iter_eq ts r st.route.length st h hc
    refine ⟨st', hiter, ?_⟩
    rw [hidx, Nat.add_mod_right, Nat.mod_eq_of_lt h]

theorem route_cursor_wraps_after_full_cycle_witness :
    sampleState.route.length = 77 ∧
    (∃ st1 wires, send_gnss_location sampleState 0 ⟨0, 0, 3⟩ = .ok (st1, wires) ∧
      st1.route_index = (sampleState.route_index + 1) % sampleState.route.length) ∧
    (∃ st', send_gnss_iter (fun _ => 0) (fun _ => ⟨0, 0, 3⟩) sampleState
        sampleState.route.length = .ok st' ∧
      st'.route_index = sampleState.route_index) :=
  route_cursor_wraps_after_full_cycle sampleState (fun _ => 0) (fun _ => ⟨0, 0, 3⟩) 0 ⟨0, 0, 3⟩
    rfl (by decide) (fun hcon => absurd hcon (by decide))

/-- C10.  `send_gnss_location` advances `route_index` by exactly one modulo
the route length even when the simulator is not connected or the transport
publish fails (any local return code), produces no wire traffic when
disconnected, and the new index is again inside `[0, route length)`. -/
theorem route_cursor_advances_unconditionally (st : SimState) (ts : Int) (r : GnssRand)
    (h : st.route_index < st.route.length)
    (hc : st.connected = true → st.client.isSome = true) :
    ∃ wires, send_gnss_location st ts r =
        .ok ({ st with route_index := (st.route_index + 1) % st.route.length }, wires) ∧
      (st.connected = false → wires = []) ∧
      (st.route_index + 1) % st.route.length < st.route.length := by
  obtain ⟨wires, heq, hw⟩ := send_gnss_location_eq st ts r h hc
  exact ⟨wires, heq, hw, Nat.mod_lt _ (Nat.lt_of_le_of_lt (Nat.zero_le _) h)⟩

theorem route_cursor_advances_unconditionally_witness :
    ∃ wires, send_gnss_location sampleState 0 ⟨0, 0, 3⟩ =
        .ok ({ sampleState with
               route_index := (sampleState.route_index + 1) % sampleState.route.length },
             wires) ∧
      (sampleState.connected = false → wires = []) ∧
      (sampleState.route_index + 1) % sampleState.route.length < sampleState.route.length :=
  route_cursor_advances_unconditionally sampleState 0 ⟨0, 0, 3⟩ (by decide)
    (fun hcon => absurd hcon (by decide))

/-- C9.  When the registration POST returns HTTP 409 during a fresh
provisioning run (key or certificate not yet on disk, CA download and account
query succeed, both openssl generations succeed), `provision_device` returns
`False` without raising, prints the explanatory device-already-exists
message, and the generated key and certificate files are still present at the
end, each generated exactly once and never deleted (the function has no
file-deleting operation at all). -/
theorem provision_conflict_nonfatal (fs : FileState) (env : ProvisionEnv)
    (hnew : fs.key = false ∨ fs.cert = false)
    (hca : env.ca_download_ok = true)
    (hacct : env.account = .ok ())
    (hkey : env.keygen_ok = true) (hcert : env.certgen_ok = true)
    (h409 : env.onboard = .error 409) :
    (provision_device fs env).result = .ok false ∧
    (provision_device fs env).files.key = true ∧
    (provision_device fs env).files.cert = true ∧
    (provision_device fs env).ops.count .generateKey = 1 ∧
    (provision_device fs env).ops.count .generateCert = 1 ∧
    "[Provision] Device already exists on nRF Cloud." ∈ (provision_device fs env).log := by
  obtain ⟨ca, key, cert⟩ := fs
  have hkc : (key && cert) = false := by
    rcases hnew with h | h <;> simp_all
  cases ca <;>
    simp [provision_device, hca, hacct, hkey, hcert, h409, hkc]

theorem provision_conflict_nonfatal_witness :
    (FileState.mk false false false).key = false ∧
    (provision_device ⟨false, false, false⟩ ⟨true, .ok (), true, true, .error 409⟩).result
      = .ok false ∧
    (provision_device ⟨false, false, false⟩ ⟨true, .ok (), true, true, .error 409⟩).files.key
      = true ∧
    (provision_device ⟨false, false, false⟩ ⟨true, .ok (), true, true, .error 409⟩).files.cert
      = true ∧
    (provision_device ⟨false, false, false⟩
        ⟨true, .ok (), true, true, .error 409⟩).ops.count .generateKey = 1 ∧
    (provision_device ⟨false, false, false⟩
        ⟨true, .ok (), true, true, .error 409⟩).ops.count .generateCert = 1 ∧
    "[Provision] Device already exists on nRF Cloud."
      ∈ (provision_device ⟨false, false, false⟩ ⟨true, .ok (), true, true, .error 409⟩).log := by
  refine ⟨rfl, ?_⟩
  have h := provision_conflict_nonfatal ⟨false, false, false⟩
    ⟨true, .ok (), true, true, .error 409⟩ (Or.inl rfl) rfl rfl rfl rfl rfl
  exact h

end DeviceSim


